import Mathlib

/-!
Shallow embedding of the `blog` Django application (files `blog/api.py`,
`blog/authentication.py`, `blog/models.py`, `blog/utils.py`) and proofs of the
spec claims about it.

Modelling conventions:
* Database rows become records in Lean structures; the database becomes the
  state `St`, a structure of lists of rows. ORM queries become list
  operations on `St`.
* `datetime` values become natural numbers (seconds); `timedelta(days=d)`
  becomes `d * 86400`.
* Django's password hashing (`set_password` / `check_password` /
  `authenticate`) is modelled by an injective tagging function
  `make_password`; `check_password` compares the tag of the submitted
  password with the stored hash, exactly the information the application
  code observes.
* Exceptions raised by the database on `save()` are modelled by an explicit
  boolean `saveOk` passed to the validation routine: `saveOk = false` means
  the `user_token.save(update_fields=[...])` call raises.
* The unbounded `while` loops of `login` (token-collision regeneration) and
  `generate_slug` (slug-collision suffixing) are modelled with explicit fuel
  `taken.length + 1`; `none` models the (probabilistically impossible)
  divergence of the loop.
-/

/-- Settings read by `api.py` via `getattr(settings, ..., default)`. -/
structure Settings where
  TOKEN_LENGTH : Nat := 256
  TOKEN_LIFETIME_DAYS : Nat := 7
deriving Repr, DecidableEq

/-- Row of Django's `auth_user` table, restricted to the fields the blog app
reads: id, username, password hash, active flag. -/
structure DjUser where
  id : Nat
  username : String
  password : String
  is_active : Bool
deriving Repr, DecidableEq

/-- Row of `blog.models.UserToken`. -/
structure UserToken where
  id : Nat
  user_id : Nat
  token : String
  created_at : Nat
  expires_at : Nat
  is_active : Bool
  last_used : Option Nat
deriving Repr, DecidableEq

/-- Row of `blog.models.Category`. -/
structure Category where
  id : Nat
  name : String
  slug : String
  description : String
  created_at : Nat
deriving Repr, DecidableEq

/-- Row of `blog.models.Article`.  `author` and `category` foreign keys are
kept as ids. -/
structure Article where
  id : Nat
  title : String
  slug : String
  content : String
  author_id : Nat
  category_id : Option Nat
  created_at : Nat
  updated_at : Nat
  published : Bool
deriving Repr, DecidableEq

/-- Row of `blog.models.Comment`. -/
structure Comment where
  id : Nat
  article_id : Nat
  author_id : Nat
  content : String
  created_at : Nat
  updated_at : Nat
deriving Repr, DecidableEq

/-- The persistent store: one list of rows per table. -/
structure St where
  users : List DjUser
  tokens : List UserToken
  categories : List Category
  articles : List Article
  comments : List Comment
deriving Repr, DecidableEq

/-- Model of Django's password hasher: an injective tag.  `set_password(p)`
stores `make_password p`. -/
def make_password (p : String) : String := "pbkdf2:" ++ p

/-- Model of `User.check_password`: hash the submitted password and compare
with the stored hash. -/
def check_password (p : String) (stored : String) : Bool :=
  make_password p == stored

/-- `User.objects.get(username=...)` / `User.objects.filter(username=...)`:
usernames are unique in `auth_user`, so the first match is the row. -/
def findUserByName (st : St) (username : String) : Option DjUser :=
  st.users.find? (fun u => u.username == username)

/-- `User.objects.get(id=...)` lookup for a foreign key dereference. -/
def findUserById (st : St) (uid : Nat) : Option DjUser :=
  st.users.find? (fun u => u.id == uid)

/-- Model of `django.contrib.auth.authenticate` with the default
`ModelBackend`: look the user up by username, check the password, and require
`is_active` (`user_can_authenticate`). -/
def authenticate (st : St) (username password : String) : Option DjUser :=
  match findUserByName st username with
  | none => none
  | some u => if check_password password u.password && u.is_active then some u else none

/-- `UserToken.is_expired` (`blog/models.py`): `timezone.now() > self.expires_at`,
a strict comparison. -/
def UserToken.is_expired (t : UserToken) (now : Nat) : Bool :=
  decide (t.expires_at < now)

/-- Characters Django's `slugify` keeps as `\w`: ASCII letters, digits and
the underscore (the model restricts to ASCII inputs). -/
def isWordChar (c : Char) : Bool := c.isAlphanum || c = '_'

/-- Collapse every run of spaces and hyphens into a single hyphen
(`re.sub(r"[-\s]+", "-", value)`): a separator character contributes a `-`
unless the collapsed tail already starts with one. -/
def collapseRuns : List Char → List Char
  | [] => []
  | c :: cs =>
    if c = ' ' || c = '-' then
      match collapseRuns cs with
      | '-' :: rest => '-' :: rest
      | rest => '-' :: rest
    else c :: collapseRuns cs

/-- Model of `django.utils.text.slugify` on ASCII input: lowercase, drop every
character that is not a word character, space or hyphen, collapse runs of
spaces/hyphens to a single hyphen, and strip `-` and `_` from both ends. -/
def slugify (s : String) : String :=
  let lowered := s.toList.map Char.toLower
  let kept := lowered.filter (fun c => isWordChar c || c = ' ' || c = '-')
  let collapsed := collapseRuns kept
  let stripped :=
    ((collapsed.dropWhile (fun c => c = '-' || c = '_')).reverse.dropWhile
      (fun c => c = '-' || c = '_')).reverse
  String.mk stripped

/-- The candidate sequence tried by `generate_slug`: `base`, `base-1`,
`base-2`, …  (`slug = f"{base_slug}-{counter}"`). -/
def slugCandidate (base : String) : Nat → String
  | 0 => base
  | k + 1 => base ++ "-" ++ toString (k + 1)

/-- First candidate of the stream `cand` (starting at index `k`) that is not
in `taken`; `none` when `fuel` candidates in a row were all taken.  This is
the shape shared by the `while ... exists()` loops of `generate_slug`
(`blog/utils.py`) and of the token-collision loop in `login` (`blog/api.py`). -/
def firstFresh (cand : Nat → String) (taken : List String) : Nat → Nat → Option String
  | 0, _ => none
  | fuel + 1, k =>
    if taken.contains (cand k) then firstFresh cand taken fuel (k + 1)
    else some (cand k)

/-- `blog.utils.generate_slug`: slugify the text and append `-1`, `-2`, … on
collision.  The ORM query `model_class.objects.filter(slug=slug)` (with the
optional `.exclude(pk=instance.pk)`) is represented by the list `taken` of
slugs of the other rows of the target table, supplied by each caller.  The
`while` loop carries fuel `taken.length + 1`; `none` models divergence. -/
def generate_slug (text : String) (taken : List String) : Option String :=
  firstFresh (slugCandidate (slugify text)) taken (taken.length + 1) 0

/-- Alphanumeric alphabet of 62 characters for token generation. -/
def tokenAlphabet : List Char :=
  "abcdefghijklmnopqrstuvwxyzABCDEFGHIJKLMNOPQRSTUVWXYZ0123456789".toList

/-- Modelled from the spec: `generate_token` is imported by `blog/api.py`
from `blog/utils.py` but no definition of it appears in the sources.  The
spec describes it as producing a cryptographically random token string of
the given fixed length over an alphanumeric alphabet.  Randomness is
modelled by an explicit seed: character `i` of the token for seed `s` is
the alphanumeric character of index `s / 62 ^ i % 62`, so distinct seeds
below `62 ^ length` give distinct tokens. -/
def generate_token (length seed : Nat) : String :=
  String.mk ((List.range length).map (fun i => tokenAlphabet.getD (seed / 62 ^ i % 62) 'a'))

/-- Result of `blog.authentication._get_user_from_token` together with the
store it leaves behind (the `last_used` write). -/
def get_user_from_token (st : St) (now : Nat) (saveOk : Bool)
    (token : Option String) : Option DjUser × St :=
  match token with
  | none => (none, st)
  | some tok =>
    if tok == "" then (none, st)
    else
      match st.tokens.find? (fun t => t.token == tok && t.is_active) with
      | none => (none, st)
      | some ut =>
        if ut.is_expired now then (none, st)
        else if saveOk then
          (findUserById st ut.user_id,
           { st with tokens := st.tokens.map (fun t =>
               if t.id == ut.id then { t with last_used := some now } else t) })
        else
          (none, st)

/-- An incoming HTTP request as the authentication layer sees it: the method,
the raw `Authorization` header, and the JSON object parsed from the body
(`none` stands for an absent, empty or unparseable body). -/
structure Request where
  method : String
  http_authorization : Option String
  body : Option (List (String × String))
deriving Repr, DecidableEq

/-- Strip ASCII whitespace from both ends of a character list
(Python's `str.strip()`). -/
def stripSpaces (cs : List Char) : List Char :=
  ((cs.dropWhile Char.isWhitespace).reverse.dropWhile Char.isWhitespace).reverse

/-- Characters up to (excluding) the first occurrence of the pattern `pat`. -/
def takeUntilSub (pat : List Char) : List Char → List Char
  | [] => []
  | c :: cs => if List.isPrefixOf pat (c :: cs) then [] else c :: takeUntilSub pat cs

/-- Bearer-token extraction in `token_auth`: when the header starts with
`Bearer `, Python's `auth_header.split('Bearer ')[1].strip()` yields the text
between the first and the (possible) second occurrence of `Bearer `,
whitespace-stripped. -/
def bearer_token (auth_header : String) : Option String :=
  if List.isPrefixOf ("Bearer ".toList) auth_header.toList then
    some (String.mk (stripSpaces
      (takeUntilSub ("Bearer ".toList) ((auth_header.toList).drop 7))))
  else none

/-- The `token` field of the parsed JSON body (`body_data.get('token')`). -/
def bodyTokenField (body : Option (List (String × String))) : Option String :=
  match body with
  | none => none
  | some kvs => kvs.lookup "token"

/-- Body half of both authenticators: for `POST`/`PUT`/`PATCH`, read the
`token` field of the JSON body and validate it; every parse failure and
falsy token is swallowed (`if token:` treats the empty string as absent). -/
def check_body_token (st : St) (now : Nat) (saveOk : Bool)
    (req : Request) : Option DjUser × St :=
  if req.method == "POST" || req.method == "PUT" || req.method == "PATCH" then
    match bodyTokenField req.body with
    | none => (none, st)
    | some tok =>
      if tok == "" then (none, st)
      else
        match get_user_from_token st now saveOk (some tok) with
        | (some u, st2) => (some u, st2)
        | (none, _) => (none, st)
  else (none, st)

/-- `TokenAuthFromHeaderOrBody.authenticate` (`blog/authentication.py`):
called by the framework with the token already extracted from the
`Authorization: Bearer` header; falls back to `_check_body_token` when the
header token authenticates nobody. -/
def TokenAuthFromHeaderOrBody.authenticate (st : St) (now : Nat) (saveOk : Bool)
    (req : Request) (token : Option String) : Option DjUser × St :=
  match get_user_from_token st now saveOk token with
  | (some u, st2) => (some u, st2)
  | (none, _) => check_body_token st now saveOk req

/-- `blog.authentication.token_auth`: parse the `Authorization` header
(`request.META.get('HTTP_AUTHORIZATION', '')`), try the Bearer token, then
fall back to the body token for mutating methods. -/
def token_auth (st : St) (now : Nat) (saveOk : Bool)
    (req : Request) : Option DjUser × St :=
  let auth_header := req.http_authorization.getD ""
  match bearer_token auth_header with
  | some tok =>
    (match get_user_from_token st now saveOk (some tok) with
     | (some u, st2) => (some u, st2)
     | (none, _) => check_body_token st now saveOk req)
  | none => check_body_token st now saveOk req

/-- `UserLoginSchema`. -/
structure UserLoginSchema where
  username : String
  password : String
deriving Repr, DecidableEq

/-- Outcome of the `login` endpoint: either the `TokenResponseSchema`
payload or a 401 with its error message. -/
inductive LoginResult where
  | ok (token : String) (expires_at : Nat) (user_id : Nat) (username : String)
  | unauthorized (error : String)
deriving Repr, DecidableEq

/-- `login` (`blog/api.py`): look the user up by username, reject missing
users and inactive accounts, authenticate the password, then generate a
token, regenerating while the string collides with a stored one, and
persist it with `expires_at = now + TOKEN_LIFETIME_DAYS` days.
`seed` feeds the modelled random generator (attempt `k` uses `seed + k`),
`tokId` is the primary key the database assigns to the new row, and `none`
models divergence of the collision loop. -/
def login (cfg : Settings) (st : St) (data : UserLoginSchema) (now : Nat)
    (seed : Nat) (tokId : Nat) : Option (LoginResult × St) :=
  match findUserByName st data.username with
  | none => some (.unauthorized "Неверное имя пользователя или пароль", st)
  | some user =>
    if !user.is_active then
      some (.unauthorized "Аккаунт пользователя неактивен", st)
    else
      match authenticate st data.username data.password with
      | none => some (.unauthorized "Неверное имя пользователя или пароль", st)
      | some user =>
        match firstFresh (fun k => generate_token cfg.TOKEN_LENGTH (seed + k))
            (st.tokens.map (fun t => t.token)) (st.tokens.length + 1) 0 with
        | none => none
        | some token =>
          let expires_at := now + cfg.TOKEN_LIFETIME_DAYS * 86400
          let user_token : UserToken :=
            { id := tokId, user_id := user.id, token := token, created_at := now,
              expires_at := expires_at, is_active := true, last_used := none }
          some (.ok token expires_at user.id user.username,
                { st with tokens := st.tokens ++ [user_token] })

/-- `ChangePasswordSchema`. -/
structure ChangePasswordSchema where
  old_password : String
  new_password : String
deriving Repr, DecidableEq

/-- Outcome of the `change_password` endpoint. -/
inductive ChangePasswordResult where
  | ok
  | unauthorized (error : String)
deriving Repr, DecidableEq

/-- `change_password` (`blog/api.py`): `request.user` is the authenticated
user `user`; check the old password against the stored hash, and on success
store the rehashed new password for that user. -/
def change_password (st : St) (user : DjUser)
    (data : ChangePasswordSchema) : ChangePasswordResult × St :=
  if !check_password data.old_password user.password then
    (.unauthorized "Неверный текущий пароль", st)
  else
    (.ok,
     { st with users := st.users.map (fun u =>
         if u.id == user.id then { u with password := make_password data.new_password }
         else u) })

/-- `ArticleCreateSchema`. -/
structure ArticleCreateSchema where
  title : String
  slug : Option String := none
  content : String
  category_id : Option Nat := none
  published : Bool := true
deriving Repr, DecidableEq

/-- `ArticleUpdateSchema`: every field optional. -/
structure ArticleUpdateSchema where
  title : Option String := none
  slug : Option String := none
  content : Option String := none
  category_id : Option Nat := none
  published : Option Bool := none
deriving Repr, DecidableEq

/-- `get_object_or_404(Article, id=article_id)`. -/
def findArticleById (st : St) (aid : Nat) : Option Article :=
  st.articles.find? (fun a => a.id == aid)

/-- Python truthiness of an optional string (`data.slug or ...`,
`if data.slug:`): `none` and the empty string are falsy. -/
def truthyStr : Option String → Option String
  | none => none
  | some s => if s == "" then none else some s

/-- `create_article` (`blog/api.py`): the slug is the client-supplied one if
truthy, otherwise `generate_slug(data.title, Article)` over the slugs of all
stored articles; note the collision loop is NOT run for a client-supplied
slug.  `data.category_id if data.category_id else None` maps the falsy id 0
to `None`.  `none` models divergence of the slug loop. -/
def create_article (st : St) (user : DjUser) (data : ArticleCreateSchema)
    (now : Nat) (newId : Nat) : Option (Article × St) :=
  let slugResult :=
    match truthyStr data.slug with
    | some s => some s
    | none => generate_slug data.title (st.articles.map (fun a => a.slug))
  match slugResult with
  | none => none
  | some slug =>
    let article : Article :=
      { id := newId, title := data.title, slug := slug, content := data.content,
        author_id := user.id,
        category_id := match data.category_id with
                       | some cid => if cid == 0 then none else some cid
                       | none => none,
        created_at := now, updated_at := now, published := data.published }
    some (article, { st with articles := st.articles ++ [article] })

/-- Outcome of `update_article`. -/
inductive UpdateArticleResult where
  | ok (article : Article)
  | forbidden (error : String)
  | notFound
deriving Repr, DecidableEq

/-- `update_article` (`blog/api.py`): 404 when the id is unknown, 403 when
the requester is not the author; otherwise the supplied fields are applied.
The slug is touched only inside the `if data.title is not None:` branch:
there it is regenerated from `data.slug` when that is truthy, else from the
new title, with the collision query excluding the updated row itself
(`exclude(pk=instance.pk)`).  `none` models divergence of the slug loop. -/
def update_article (st : St) (user : DjUser) (article_id : Nat)
    (data : ArticleUpdateSchema) (now : Nat) : Option (UpdateArticleResult × St) :=
  match findArticleById st article_id with
  | none => some (.notFound, st)
  | some article =>
    if article.author_id != user.id then
      some (.forbidden "Вы можете редактировать только свои статьи", st)
    else
      let takenOther :=
        (st.articles.filter (fun a => a.id != article.id)).map (fun a => a.slug)
      let titledResult :=
        match data.title with
        | none => some article
        | some newTitle =>
          let a1 := { article with title := newTitle }
          match truthyStr data.slug with
          | some s =>
            (generate_slug s takenOther).map (fun sl => { a1 with slug := sl })
          | none =>
            (generate_slug newTitle takenOther).map (fun sl => { a1 with slug := sl })
      match titledResult with
      | none => none
      | some a1 =>
        let a2 := match data.content with
                  | none => a1
                  | some c => { a1 with content := c }
        let a3 := match data.category_id with
                  | none => a2
                  | some cid => { a2 with category_id := some cid }
        let a4 := match data.published with
                  | none => a3
                  | some p => { a3 with published := p }
        let a5 := { a4 with updated_at := now }
        some (.ok a5,
              { st with articles := st.articles.map (fun a =>
                  if a.id == article_id then a5 else a) })

/-- Outcome of `delete_article`. -/
inductive DeleteArticleResult where
  | ok
  | forbidden (error : String)
  | notFound
deriving Repr, DecidableEq

/-- `delete_article` (`blog/api.py`): 404 when the id is unknown, 403 when
the requester is not the author; otherwise the row is removed (comments
cascade with `on_delete=CASCADE`). -/
def delete_article (st : St) (user : DjUser)
    (article_id : Nat) : DeleteArticleResult × St :=
  match findArticleById st article_id with
  | none => (.notFound, st)
  | some article =>
    if article.author_id != user.id then
      (.forbidden "Вы можете удалять только свои статьи", st)
    else
      (.ok,
       { st with
           articles := st.articles.filter (fun a => a.id != article_id),
           comments := st.comments.filter (fun c => c.article_id != article_id) })

/-- `CategoryCreateSchema`. -/
structure CategoryCreateSchema where
  name : String
  slug : Option String := none
  description : Option String := none
deriving Repr, DecidableEq

/-- `create_category` (`blog/api.py`): the slug is the client-supplied one if
truthy, otherwise `generate_slug(data.name, Category)` over the slugs of all
stored categories.  `none` models divergence of the slug loop. -/
def create_category (st : St) (data : CategoryCreateSchema)
    (now : Nat) (newId : Nat) : Option (Category × St) :=
  let slugResult :=
    match truthyStr data.slug with
    | some s => some s
    | none => generate_slug data.name (st.categories.map (fun c => c.slug))
  match slugResult with
  | none => none
  | some slug =>
    let category : Category :=
      { id := newId, name := data.name, slug := slug,
        description := data.description.getD "", created_at := now }
    some (category, { st with categories := st.categories ++ [category] })

/-! Helper lemmas about the collision loops and the validator. -/

/-- Referential integrity of the `UserToken.user` foreign key: every stored
token points at a stored user.  Guaranteed by the database; the model states
it explicitly where a proof needs it. -/
def tokensHaveUsers (st : St) : Prop :=
  ∀ t ∈ st.tokens, (findUserById st t.user_id).isSome

instance (st : St) : Decidable (tokensHaveUsers st) := by
  unfold tokensHaveUsers; infer_instance

/-- A successful `firstFresh` run returns a candidate that is not taken. -/
theorem firstFresh_not_taken (cand : Nat → String) (taken : List String) :
    ∀ fuel k s, firstFresh cand taken fuel k = some s → s ∉ taken := by
  intro fuel
  induction fuel with
  | zero => intro k s h; simp [firstFresh] at h
  | succ n ih =>
    intro k s h
    unfold firstFresh at h
    by_cases hc : taken.contains (cand k)
    · rw [if_pos hc] at h
      exact ih (k + 1) s h
    · rw [if_neg hc] at h
      cases h
      simpa using hc

/-- A successful `firstFresh` run returns the first fresh candidate: the
result is `cand (k + i)` for some `i`, that candidate is free, and every
earlier candidate from `k` on is taken. -/
theorem firstFresh_first (cand : Nat → String) (taken : List String) :
    ∀ fuel k s, firstFresh cand taken fuel k = some s →
      ∃ i, s = cand (k + i) ∧ cand (k + i) ∉ taken ∧ ∀ j < i, cand (k + j) ∈ taken := by
  intro fuel
  induction fuel with
  | zero => intro k s h; simp [firstFresh] at h
  | succ n ih =>
    intro k s h
    unfold firstFresh at h
    by_cases hc : taken.contains (cand k)
    · rw [if_pos hc] at h
      obtain ⟨i, hs, hfree, hbefore⟩ := ih (k + 1) s h
      have harith : k + 1 + i = k + (i + 1) := by omega
      refine ⟨i + 1, harith ▸ hs, harith ▸ hfree, ?_⟩
      intro j hj
      cases j with
      | zero => simpa using hc
      | succ m =>
        have : k + (m + 1) = k + 1 + m := by omega
        rw [this]
        exact hbefore m (by omega)
    · rw [if_neg hc] at h
      cases h
      exact ⟨0, rfl, by simpa using hc, by omega⟩

/-- A failed validation leaves the store untouched (given referential
integrity of the token table). -/
theorem get_user_from_token_none_frame (st : St) (now : Nat) (saveOk : Bool)
    (token : Option String) (hFK : tokensHaveUsers st)
    (h : (get_user_from_token st now saveOk token).1 = none) :
    (get_user_from_token st now saveOk token).2 = st := by
  unfold get_user_from_token at h ⊢
  cases token with
  | none => rfl
  | some tok =>
    by_cases he : tok == ""
    · simp [he]
    · simp only [he, Bool.false_eq_true, if_false] at h ⊢
      cases hf : st.tokens.find? (fun t => t.token == tok && t.is_active) with
      | none => simp [hf]
      | some ut =>
        simp only [hf] at h ⊢
        by_cases hexp : ut.is_expired now
        · simp [hexp]
        · simp only [hexp, Bool.false_eq_true, if_false] at h ⊢
          cases saveOk with
          | false => rfl
          | true =>
            exfalso
            simp only [if_true] at h
            have hmem : ut ∈ st.tokens := List.mem_of_find?_eq_some hf
            have := hFK ut hmem
            rw [h] at this
            simp at this

/-! Concrete fixtures for the witnesses. -/

/-- An active user with password `pw`. -/
def alice : DjUser :=
  { id := 1, username := "alice", password := make_password "pw", is_active := true }

/-- An inactive user with password `pw`. -/
def bob : DjUser :=
  { id := 2, username := "bob", password := make_password "pw", is_active := false }

/-- An active token for `alice` expiring at time 1000. -/
def tok1 : UserToken :=
  { id := 1, user_id := 1, token := "tokaaa", created_at := 0,
    expires_at := 1000, is_active := true, last_used := none }

/-- An article authored by `alice`. -/
def art1 : Article :=
  { id := 1, title := "Foo", slug := "foo", content := "body", author_id := 1,
    category_id := none, created_at := 0, updated_at := 0, published := true }

/-- The example store. -/
def exSt : St :=
  { users := [alice, bob], tokens := [tok1], categories := [],
    articles := [art1], comments := [] }

/-- C1: a login request succeeds — returning a freshly created token with its
expiry, the user id and the username — exactly when the username names a
stored user whose account is active and whose submitted password matches the
stored hash; in every other case the endpoint answers 401 and the store is
unchanged, so no token row is created. -/
theorem login_success_iff (cfg : Settings) (st : St) (data : UserLoginSchema)
    (now seed tokId : Nat) (out : LoginResult) (st' : St)
    (h : login cfg st data now seed tokId = some (out, st')) :
    ((∃ u, findUserByName st data.username = some u ∧ u.is_active = true ∧
        check_password data.password u.password = true) ↔
      ∃ t e uid un, out = .ok t e uid un)
    ∧ (∀ msg, out = .unauthorized msg → st' = st) := by
  unfold login at h
  cases hf : findUserByName st data.username with
  | none =>
    rw [hf] at h
    simp only [Option.some.injEq, Prod.mk.injEq] at h
    obtain ⟨hout, hst⟩ := h
    refine ⟨⟨?_, ?_⟩, ?_⟩
    · rintro ⟨u, hu, -, -⟩
      exact Option.noConfusion hu
    · rintro ⟨t, e, uid, un, hok⟩
      rw [← hout] at hok
      cases hok
    · intro msg _
      exact hst.symm
  | some user =>
    rw [hf] at h
    have ha : authenticate st data.username data.password =
        (if check_password data.password user.password && user.is_active
         then some user else none) := by
      unfold authenticate; rw [hf]
    rw [ha] at h
    cases hact : user.is_active with
    | false =>
      simp only [hact, Bool.not_false, if_true, Option.some.injEq, Prod.mk.injEq] at h
      obtain ⟨hout, hst⟩ := h
      refine ⟨⟨?_, ?_⟩, ?_⟩
      · rintro ⟨u, hu, hu_active, -⟩
        injection hu with hu
        rw [← hu, hact] at hu_active
        cases hu_active
      · rintro ⟨t, e, uid, un, hok⟩
        rw [← hout] at hok
        cases hok
      · intro msg _
        exact hst.symm
    | true =>
      simp only [hact, Bool.not_true, Bool.false_eq_true, if_false, Bool.and_true] at h
      cases hcp : check_password data.password user.password with
      | false =>
        simp only [hcp, Bool.false_eq_true, if_false, Option.some.injEq,
          Prod.mk.injEq] at h
        obtain ⟨hout, hst⟩ := h
        refine ⟨⟨?_, ?_⟩, ?_⟩
        · rintro ⟨u, hu, -, hu_pw⟩
          injection hu with hu
          rw [← hu, hcp] at hu_pw
          cases hu_pw
        · rintro ⟨t, e, uid, un, hok⟩
          rw [← hout] at hok
          cases hok
        · intro msg _
          exact hst.symm
      | true =>
        simp only [hcp, if_true] at h
        cases hff : firstFresh (fun k => generate_token cfg.TOKEN_LENGTH (seed + k))
            (st.tokens.map (fun t => t.token)) (st.tokens.length + 1) 0 with
        | none =>
          rw [hff] at h
          simp at h
        | some token =>
          rw [hff] at h
          simp only [Option.some.injEq, Prod.mk.injEq] at h
          obtain ⟨hout, hst⟩ := h
          refine ⟨⟨?_, ?_⟩, ?_⟩
          · intro _
            exact ⟨token, now + cfg.TOKEN_LIFETIME_DAYS * 86400, user.id,
                   user.username, hout.symm⟩
          · intro _
            exact ⟨user, rfl, hact, hcp⟩
          · intro msg hmsg
            rw [← hout] at hmsg
            cases hmsg

/-- Witness for C1 at a concrete failing login: unknown username `carol`
against the example store. -/
theorem login_success_iff_witness :
    ((∃ u, findUserByName exSt "carol" = some u ∧ u.is_active = true ∧
        check_password "pw" u.password = true) ↔
      ∃ t e uid un,
        (LoginResult.unauthorized "Неверное имя пользователя или пароль") = .ok t e uid un)
    ∧ (∀ msg,
        (LoginResult.unauthorized "Неверное имя пользователя или пароль") = .unauthorized msg →
        exSt = exSt) :=
  login_success_iff {} exSt ⟨"carol", "pw"⟩ 5 0 2
    (.unauthorized "Неверное имя пользователя или пароль") exSt rfl

/-- C2: a stored token whose `expires_at` lies strictly in the past
(`now > expires_at`) is rejected by validation — `_get_user_from_token`
returns `None`, so the request is unauthenticated — even though the row was
found by the `is_active=True` lookup. -/
theorem expired_token_rejected (st : St) (now : Nat) (saveOk : Bool)
    (tok : String) (ut : UserToken)
    (hfind : st.tokens.find? (fun t => t.token == tok && t.is_active) = some ut)
    (hactive : ut.is_active = true)
    (hexp : ut.expires_at < now) :
    (get_user_from_token st now saveOk (some tok)).1 = none := by
  unfold get_user_from_token
  by_cases he : tok == ""
  · simp [he]
  · have hexp' : ut.is_expired now = true := by
      simp [UserToken.is_expired, hexp]
    simp only [he, Bool.false_eq_true, if_false, hfind, hexp', if_true]

/-- Witness for C2: at time 2000 the example token (expiry 1000, still
active) is rejected. -/
theorem expired_token_rejected_witness :
    (get_user_from_token exSt 2000 true (some "tokaaa")).1 = none :=
  expired_token_rejected exSt 2000 true "tokaaa" tok1 rfl rfl (by decide)

/-- C3 counterexample: with the example store at time 500 the token `tokaaa`
is found, active and unexpired, yet when persisting `last_used` raises
(`saveOk = false`) the validator returns `None`: the blanket
`except Exception` in `_get_user_from_token` swallows the save error and
treats the request as unauthenticated, contradicting the claim. -/
theorem save_failure_unauthenticated_counterexample :
    exSt.tokens.find? (fun t => t.token == "tokaaa" && t.is_active) = some tok1
    ∧ tok1.is_active = true
    ∧ tok1.is_expired 500 = false
    ∧ (get_user_from_token exSt 500 false (some "tokaaa")).1 = none := by
  refine ⟨rfl, rfl, by decide, rfl⟩

/-- C3 as amended: when the stored token is found, active and not expired,
validation returns the token's user provided the `last_used = now` write
persists; when that write raises, the `except Exception` handler returns
`None` and the request is treated as unauthenticated. -/
theorem get_user_from_token_save_behaviour (st : St) (now : Nat)
    (tok : String) (ut : UserToken)
    (hne : (tok == "") = false)
    (hfind : st.tokens.find? (fun t => t.token == tok && t.is_active) = some ut)
    (hexp : ut.is_expired now = false) :
    (get_user_from_token st now true (some tok)).1 = findUserById st ut.user_id
    ∧ (get_user_from_token st now false (some tok)).1 = none := by
  unfold get_user_from_token
  simp only [hne, Bool.false_eq_true, if_false, hfind, hexp, if_true]
  exact ⟨trivial, trivial⟩

/-- Witness for the amended C3: at time 500 the example token authenticates
`alice` when the save succeeds and nobody when it raises. -/
theorem get_user_from_token_save_behaviour_witness :
    (get_user_from_token exSt 500 true (some "tokaaa")).1 = findUserById exSt 1
    ∧ (get_user_from_token exSt 500 false (some "tokaaa")).1 = none :=
  get_user_from_token_save_behaviour exSt 500 "tokaaa" tok1 rfl rfl (by decide)

/-- The modelled `generate_token` always returns a string of exactly the
requested length. -/
theorem generate_token_length (n s : Nat) : (generate_token n s).length = n := by
  simp [generate_token, String.length]

/-- C4: a token issued by a successful login has exactly the configured
length (`TOKEN_LENGTH`, default 256), and if no two stored token rows held
the same token string before the login — active or inactive — the same holds
after it: the collision loop only accepts a string distinct from every
stored one. -/
theorem issued_token_length_and_unique (cfg : Settings) (st : St)
    (data : UserLoginSchema) (now seed tokId : Nat)
    (t : String) (e uid : Nat) (un : String) (st' : St)
    (hnodup : (st.tokens.map (fun x => x.token)).Nodup)
    (h : login cfg st data now seed tokId = some (.ok t e uid un, st')) :
    t.length = cfg.TOKEN_LENGTH
    ∧ (st'.tokens.map (fun x => x.token)).Nodup := by
  unfold login at h
  cases hf : findUserByName st data.username with
  | none =>
    rw [hf] at h
    simp only [Option.some.injEq, Prod.mk.injEq] at h
    cases h.1
  | some user =>
    rw [hf] at h
    cases hact : user.is_active with
    | false =>
      simp only [hact, Bool.not_false, if_true, Option.some.injEq, Prod.mk.injEq] at h
      cases h.1
    | true =>
      simp only [hact, Bool.not_true, Bool.false_eq_true, if_false] at h
      cases hauth : authenticate st data.username data.password with
      | none =>
        rw [hauth] at h
        simp only [Option.some.injEq, Prod.mk.injEq] at h
        cases h.1
      | some u2 =>
        rw [hauth] at h
        cases hff : firstFresh (fun k => generate_token cfg.TOKEN_LENGTH (seed + k))
            (st.tokens.map (fun x => x.token)) (st.tokens.length + 1) 0 with
        | none =>
          rw [hff] at h
          simp at h
        | some token =>
          rw [hff] at h
          simp only [Option.some.injEq, Prod.mk.injEq, LoginResult.ok.injEq] at h
          obtain ⟨⟨htok, -, -, -⟩, hst⟩ := h
          subst htok
          constructor
          · obtain ⟨i, hi, -, -⟩ := firstFresh_first _ _ _ _ _ hff
            rw [hi]
            exact generate_token_length _ _
          · have hfree : token ∉ st.tokens.map (fun x => x.token) :=
              firstFresh_not_taken _ _ _ _ _ hff
            rw [← hst]
            simp only [List.map_append, List.map_cons, List.map_nil]
            refine List.Nodup.append hnodup (List.nodup_singleton _) ?_
            intro a ha hb
            rw [List.mem_singleton] at hb
            subst hb
            exact hfree ha

/-- The token row the C4 witness login creates. -/
def tok2 : UserToken :=
  { id := 2, user_id := 1, token := generate_token 8 7, created_at := 100,
    expires_at := 100 + 7 * 86400, is_active := true, last_used := none }

/-- Witness for C4: a concrete successful login of `alice` with 8-character
tokens; the fresh token has length 8 and the token strings stay distinct. -/
theorem issued_token_length_and_unique_witness :
    (generate_token 8 7).length = ({ TOKEN_LENGTH := 8 } : Settings).TOKEN_LENGTH
    ∧ (((exSt.tokens ++ [tok2]).map (fun x => x.token)).Nodup) :=
  issued_token_length_and_unique ({ TOKEN_LENGTH := 8 } : Settings) exSt
    ⟨"alice", "pw"⟩ 100 7 2 (generate_token 8 7) (100 + 7 * 86400) 1 "alice"
    ({ exSt with tokens := exSt.tokens ++ [tok2] } : St)
    (by decide) (by decide)

/-- The `Authorization` header attempt authenticates nobody: every token the
Bearer parser may extract is rejected by `_get_user_from_token` (vacuously
true when the header is absent or not of Bearer shape). -/
def headerAuthFails (st : St) (now : Nat) (saveOk : Bool) (req : Request) : Prop :=
  ∀ tk, bearer_token (req.http_authorization.getD "") = some tk →
    (get_user_from_token st now saveOk (some tk)).1 = none

/-- The request method is one for which the body fallback is enabled. -/
def mutatingMethod (req : Request) : Prop :=
  req.method = "POST" ∨ req.method = "PUT" ∨ req.method = "PATCH"

/-- The body fallback honours a valid body token on a mutating method. -/
theorem check_body_token_found (st : St) (now : Nat) (saveOk : Bool)
    (req : Request) (tk : String) (u : DjUser) (st2 : St)
    (hm : mutatingMethod req)
    (hb : bodyTokenField req.body = some tk) (hne : tk ≠ "")
    (hok : get_user_from_token st now saveOk (some tk) = (some u, st2)) :
    check_body_token st now saveOk req = (some u, st2) := by
  unfold check_body_token
  have hcond : (req.method == "POST" || req.method == "PUT" || req.method == "PATCH") = true := by
    rcases hm with h | h | h <;> simp [h]
  rw [hcond, if_pos rfl, hb]
  have hne' : (tk == "") = false := by
    simp [hne]
  simp only [hne', Bool.false_eq_true, if_false, hok]

/-- The body fallback never authenticates on non-mutating methods. -/
theorem check_body_token_not_mutating (st : St) (now : Nat) (saveOk : Bool)
    (req : Request) (hm : ¬ mutatingMethod req) :
    check_body_token st now saveOk req = (none, st) := by
  unfold check_body_token
  have hcond : (req.method == "POST" || req.method == "PUT" || req.method == "PATCH") = false := by
    unfold mutatingMethod at hm
    push_neg at hm
    obtain ⟨h1, h2, h3⟩ := hm
    simp [h1, h2, h3]
  rw [hcond]
  simp

/-- When the header attempt fails, `token_auth` falls through to the body
check on the untouched store. -/
theorem token_auth_header_failed (st : St) (now : Nat) (saveOk : Bool)
    (req : Request) (hfail : headerAuthFails st now saveOk req) :
    token_auth st now saveOk req = check_body_token st now saveOk req := by
  unfold token_auth
  cases hbt : bearer_token (req.http_authorization.getD "") with
  | none => simp only [hbt]
  | some tk =>
    have hno := hfail tk hbt
    cases hg : get_user_from_token st now saveOk (some tk) with
    | mk fst snd =>
      rw [hg] at hno
      simp only at hno
      subst hno
      simp only [hbt, hg]

/-- C5: the `token_auth` flow reads the token first from the
`Authorization: Bearer` header: a header token accepted by validation
authenticates the request and the body is never consulted; only when the
header yields no authenticated user and the method is POST, PUT or PATCH is
the `token` field of the JSON body tried, and a valid body token then
authenticates the request; for any other method the request stays
unauthenticated once the header has failed.  The wired
`TokenAuthFromHeaderOrBody.authenticate` behaves identically on the
already-extracted header token. -/
theorem token_auth_header_then_body (st : St) (now : Nat) (saveOk : Bool)
    (req : Request) :
    (∀ tk u st2, bearer_token (req.http_authorization.getD "") = some tk →
        get_user_from_token st now saveOk (some tk) = (some u, st2) →
        token_auth st now saveOk req = (some u, st2))
    ∧ (∀ tk u st2, headerAuthFails st now saveOk req → mutatingMethod req →
        bodyTokenField req.body = some tk → tk ≠ "" →
        get_user_from_token st now saveOk (some tk) = (some u, st2) →
        token_auth st now saveOk req = (some u, st2))
    ∧ (headerAuthFails st now saveOk req → ¬ mutatingMethod req →
        token_auth st now saveOk req = (none, st))
    ∧ (∀ tok u st2, get_user_from_token st now saveOk tok = (some u, st2) →
        TokenAuthFromHeaderOrBody.authenticate st now saveOk req tok = (some u, st2))
    ∧ (∀ tok, (get_user_from_token st now saveOk tok).1 = none →
        TokenAuthFromHeaderOrBody.authenticate st now saveOk req tok =
          check_body_token st now saveOk req) := by
  refine ⟨?_, ?_, ?_, ?_, ?_⟩
  · intro tk u st2 hbt hok
    simp only [token_auth, hbt, hok]
  · intro tk u st2 hfail hm hb hne hok
    rw [token_auth_header_failed st now saveOk req hfail]
    exact check_body_token_found st now saveOk req tk u st2 hm hb hne hok
  · intro hfail hm
    rw [token_auth_header_failed st now saveOk req hfail]
    exact check_body_token_not_mutating st now saveOk req hm
  · intro tok u st2 hok
    simp only [TokenAuthFromHeaderOrBody.authenticate, hok]
  · intro tok hno
    unfold TokenAuthFromHeaderOrBody.authenticate
    cases hg : get_user_from_token st now saveOk tok with
    | mk fst snd =>
      rw [hg] at hno
      simp only at hno
      subst hno
      simp only [hg]

/-- The example token row after its `last_used` update at time 500. -/
def tok1Used : UserToken := { tok1 with last_used := some 500 }

/-- The example store after a successful validation at time 500. -/
def exStUsed : St := { exSt with tokens := [tok1Used] }

/-- A GET request carrying the valid example token in the header. -/
def reqHdr : Request :=
  { method := "GET", http_authorization := some "Bearer tokaaa", body := none }

/-- A POST request with no header and the valid token in the JSON body. -/
def reqBody : Request :=
  { method := "POST", http_authorization := none, body := some [("token", "tokaaa")] }

/-- A GET request with no header and the valid token in the JSON body. -/
def reqGetBody : Request :=
  { method := "GET", http_authorization := none, body := some [("token", "tokaaa")] }

/-- Witness for C5: the header token authenticates `alice` on a GET; the
same token in the body authenticates her on a POST without header; on a GET
without header the body token is never consulted. -/
theorem token_auth_header_then_body_witness :
    token_auth exSt 500 true reqHdr = (some alice, exStUsed)
    ∧ token_auth exSt 500 true reqBody = (some alice, exStUsed)
    ∧ token_auth exSt 500 true reqGetBody = (none, exSt) := by
  have h := token_auth_header_then_body exSt 500 true reqHdr
  have hb := token_auth_header_then_body exSt 500 true reqBody
  have hg := token_auth_header_then_body exSt 500 true reqGetBody
  refine ⟨h.1 "tokaaa" alice exStUsed rfl rfl, ?_, ?_⟩
  · exact hb.2.1 "tokaaa" alice exStUsed
      (fun tk htk => Option.noConfusion htk) (Or.inl rfl) rfl (by decide) rfl
  · exact hg.2.2.1 (fun tk htk => Option.noConfusion htk)
      (by intro hm; rcases hm with h1 | h1 | h1 <;> exact absurd h1 (by decide))

/-- C6 counterexample: two failed logins against the example store — `bob`
(inactive account, correct password) and `carol` (no such user) — receive
different error bodies, so the response does reveal the "inactive" cause,
contrary to the claim that all three failure causes share one generic
message. -/
theorem login_error_message_leak_counterexample :
    login {} exSt ⟨"bob", "pw"⟩ 100 0 2 =
      some (.unauthorized "Аккаунт пользователя неактивен", exSt)
    ∧ login {} exSt ⟨"carol", "pw"⟩ 100 0 2 =
      some (.unauthorized "Неверное имя пользователя или пароль", exSt)
    ∧ "Аккаунт пользователя неактивен" ≠ "Неверное имя пользователя или пароль" :=
  ⟨rfl, rfl, by decide⟩

/-- C6 as amended: the username-absent and password-mismatch failures carry
the same generic message, but the inactive-account failure carries a
distinct message, so the response body distinguishes "inactive" from the
other two causes (only those two are mutually indistinguishable). -/
theorem login_failure_message_by_cause (cfg : Settings) (st : St)
    (data : UserLoginSchema) (now seed tokId : Nat) :
    (findUserByName st data.username = none →
      login cfg st data now seed tokId =
        some (.unauthorized "Неверное имя пользователя или пароль", st))
    ∧ (∀ u, findUserByName st data.username = some u → u.is_active = true →
        check_password data.password u.password = false →
        login cfg st data now seed tokId =
          some (.unauthorized "Неверное имя пользователя или пароль", st))
    ∧ (∀ u, findUserByName st data.username = some u → u.is_active = false →
        login cfg st data now seed tokId =
          some (.unauthorized "Аккаунт пользователя неактивен", st))
    ∧ "Аккаунт пользователя неактивен" ≠ "Неверное имя пользователя или пароль" := by
  refine ⟨?_, ?_, ?_, by decide⟩
  · intro hf
    unfold login
    rw [hf]
  · intro u hf hact hcp
    unfold login
    have ha : authenticate st data.username data.password =
        (if check_password data.password u.password && u.is_active
         then some u else none) := by
      unfold authenticate; rw [hf]
    rw [hf]
    simp only [hact, Bool.not_true, Bool.false_eq_true, if_false, ha, hcp,
      Bool.false_and]
  · intro u hf hact
    unfold login
    rw [hf]
    simp only [hact, Bool.not_false, if_true]

/-- Witness for the amended C6: the three concrete failure causes against
the example store produce exactly the two messages. -/
theorem login_failure_message_by_cause_witness :
    login {} exSt ⟨"carol", "pw"⟩ 9 0 2 =
      some (.unauthorized "Неверное имя пользователя или пароль", exSt)
    ∧ login {} exSt ⟨"alice", "bad"⟩ 9 0 2 =
      some (.unauthorized "Неверное имя пользователя или пароль", exSt)
    ∧ login {} exSt ⟨"bob", "pw"⟩ 9 0 2 =
      some (.unauthorized "Аккаунт пользователя неактивен", exSt)
    ∧ "Аккаунт пользователя неактивен" ≠ "Неверное имя пользователя или пароль" := by
  refine ⟨?_, ?_, ?_, by decide⟩
  · exact (login_failure_message_by_cause {} exSt ⟨"carol", "pw"⟩ 9 0 2).1 rfl
  · exact (login_failure_message_by_cause {} exSt ⟨"alice", "bad"⟩ 9 0 2).2.1
      alice rfl rfl (by decide)
  · exact (login_failure_message_by_cause {} exSt ⟨"bob", "pw"⟩ 9 0 2).2.2.1
      bob rfl rfl

/-- C7: a PUT or DELETE on an article by any user other than its author
answers 403 and returns the store unchanged, so the article (and every
other row) keeps every field. -/
theorem foreign_article_mutation_forbidden (st : St) (user : DjUser)
    (aid : Nat) (data : ArticleUpdateSchema) (now : Nat) (a : Article)
    (hfind : findArticleById st aid = some a)
    (hauthor : a.author_id ≠ user.id) :
    update_article st user aid data now =
      some (.forbidden "Вы можете редактировать только свои статьи", st)
    ∧ delete_article st user aid =
      (.forbidden "Вы можете удалять только свои статьи", st) := by
  have hne : (a.author_id != user.id) = true := by simp [hauthor]
  constructor
  · unfold update_article
    rw [hfind]
    simp only [hne, if_true]
  · unfold delete_article
    rw [hfind]
    simp only [hne, if_true]

/-- Witness for C7: `bob` (id 2) attempting to mutate `alice`'s article
(id 1) gets 403 from both endpoints and the store is returned unchanged. -/
theorem foreign_article_mutation_forbidden_witness :
    update_article exSt bob 1 {} 700 =
      some (.forbidden "Вы можете редактировать только свои статьи", exSt)
    ∧ delete_article exSt bob 1 =
      (.forbidden "Вы можете удалять только свои статьи", exSt) :=
  foreign_article_mutation_forbidden exSt bob 1 {} 700 art1 rfl (by decide)

/-- C8: a change-password request with a wrong old password fails with the
store fully unchanged; with the right old password only the requesting
user's password hash is replaced — every token row (its `is_active` and
`expires_at` included) and every other table survives verbatim, so no
existing token is invalidated. -/
theorem change_password_frame (st : St) (user : DjUser)
    (data : ChangePasswordSchema) :
    (check_password data.old_password user.password = false →
      change_password st user data = (.unauthorized "Неверный текущий пароль", st))
    ∧ (check_password data.old_password user.password = true →
      (change_password st user data).1 = .ok
      ∧ (change_password st user data).2.tokens = st.tokens
      ∧ (change_password st user data).2.categories = st.categories
      ∧ (change_password st user data).2.articles = st.articles
      ∧ (change_password st user data).2.comments = st.comments
      ∧ (change_password st user data).2.users = st.users.map (fun u =>
          if u.id == user.id
          then { u with password := make_password data.new_password }
          else u)) := by
  constructor
  · intro hcp
    unfold change_password
    simp only [hcp, Bool.not_false, if_true]
  · intro hcp
    unfold change_password
    simp only [hcp, Bool.not_true, Bool.false_eq_true, if_false]
    exact ⟨trivial, trivial, trivial, trivial, trivial, trivial⟩

/-- Witness for C8: `alice` changes her password with the correct old
password `pw`; tokens and all other tables are untouched and only her hash
is rewritten. -/
theorem change_password_frame_witness :
    (change_password exSt alice ⟨"pw", "newpw"⟩).1 = .ok
    ∧ (change_password exSt alice ⟨"pw", "newpw"⟩).2.tokens = exSt.tokens
    ∧ (change_password exSt alice ⟨"pw", "newpw"⟩).2.categories = exSt.categories
    ∧ (change_password exSt alice ⟨"pw", "newpw"⟩).2.articles = exSt.articles
    ∧ (change_password exSt alice ⟨"pw", "newpw"⟩).2.comments = exSt.comments
    ∧ (change_password exSt alice ⟨"pw", "newpw"⟩).2.users = exSt.users.map (fun u =>
        if u.id == alice.id
        then { u with password := make_password "newpw" }
        else u) :=
  (change_password_frame exSt alice ⟨"pw", "newpw"⟩).2 (by decide)

/-- `s` is the first element of the sequence `base`, `base-1`, `base-2`, …
that does not occur in `taken`. -/
def isFirstFreshSlug (base : String) (taken : List String) (s : String) : Prop :=
  ∃ i, s = slugCandidate base i ∧ slugCandidate base i ∉ taken ∧
    ∀ j < i, slugCandidate base j ∈ taken

/-- A successful `generate_slug` run yields the first fresh candidate over
the slugified text. -/
theorem generate_slug_first_fresh (text : String) (taken : List String)
    (s : String) (h : generate_slug text taken = some s) :
    isFirstFreshSlug (slugify text) taken s := by
  obtain ⟨i, hi, hfree, hbef⟩ := firstFresh_first _ _ _ _ _ h
  exact ⟨i, by simpa using hi, by simpa using hfree,
         fun j hj => by simpa using hbef j hj⟩

/-- The article created by the C9 counterexample request. -/
def artBar : Article :=
  { id := 2, title := "Bar", slug := "foo", content := "x", author_id := 1,
    category_id := none, created_at := 10, updated_at := 10, published := true }

/-- C9 counterexample: creating an article while supplying the explicit slug
`foo` — already taken by the stored article — stores the colliding slug
verbatim: `data.slug or generate_slug(...)` bypasses the suffixing loop
whenever a truthy slug is supplied, so the stored slug is not the first
fresh element of the `foo`, `foo-1`, … sequence. -/
theorem slug_collision_suffix_counterexample :
    create_article exSt alice
        { title := "Bar", slug := some "foo", content := "x" } 10 2 =
      some (artBar, { exSt with articles := exSt.articles ++ [artBar] })
    ∧ artBar.slug ∈ exSt.articles.map (fun x => x.slug) :=
  ⟨rfl, by decide⟩

/-- C9 as amended: whenever no truthy explicit slug accompanies the request,
the stored slug is the first element of `base`, `base-1`, `base-2`, … (base
the slugified title or name) not taken by another record of the same type:
for article creation and category creation over all stored rows of that
type, and for an article update carrying a new title over all other
articles (the updated row itself is excluded).  An explicit truthy slug at
creation is stored verbatim, without the uniqueness loop. -/
theorem slug_collision_suffix (st : St) (user : DjUser) (now newId : Nat) :
    (∀ dataA a st', truthyStr dataA.slug = none →
       create_article st user dataA now newId = some (a, st') →
       isFirstFreshSlug (slugify dataA.title)
         (st.articles.map (fun x => x.slug)) a.slug)
    ∧ (∀ dataC c st', truthyStr dataC.slug = none →
       create_category st dataC now newId = some (c, st') →
       isFirstFreshSlug (slugify dataC.name)
         (st.categories.map (fun x => x.slug)) c.slug)
    ∧ (∀ aid dataU t a0 res st', findArticleById st aid = some a0 →
       a0.author_id = user.id → dataU.title = some t →
       truthyStr dataU.slug = none →
       update_article st user aid dataU now = some (.ok res, st') →
       isFirstFreshSlug (slugify t)
         ((st.articles.filter (fun x => x.id != a0.id)).map (fun x => x.slug))
         res.slug) := by
  refine ⟨?_, ?_, ?_⟩
  · intro dataA a st' hts h
    simp only [create_article, hts] at h
    cases hg : generate_slug dataA.title (st.articles.map (fun x => x.slug)) with
    | none => rw [hg] at h; simp at h
    | some s =>
      rw [hg] at h
      simp only [Option.some.injEq, Prod.mk.injEq] at h
      obtain ⟨ha, -⟩ := h
      rw [← ha]
      exact generate_slug_first_fresh _ _ _ hg
  · intro dataC c st' hts h
    simp only [create_category, hts] at h
    cases hg : generate_slug dataC.name (st.categories.map (fun x => x.slug)) with
    | none => rw [hg] at h; simp at h
    | some s =>
      rw [hg] at h
      simp only [Option.some.injEq, Prod.mk.injEq] at h
      obtain ⟨hc, -⟩ := h
      rw [← hc]
      exact generate_slug_first_fresh _ _ _ hg
  · intro aid dataU t a0 res st' hfind hown htitle hts h
    unfold update_article at h
    rw [hfind] at h
    have hne : (a0.author_id != user.id) = false := by simp [hown]
    simp only [hne, Bool.false_eq_true, if_false, htitle, hts] at h
    cases hg : generate_slug t
        ((st.articles.filter (fun x => x.id != a0.id)).map (fun x => x.slug)) with
    | none =>
      rw [hg] at h
      simp at h
    | some sl =>
      rw [hg] at h
      simp only [Option.map_some'] at h
      simp only [Option.some.injEq, Prod.mk.injEq, UpdateArticleResult.ok.injEq] at h
      obtain ⟨hres, -⟩ := h
      rw [← hres]
      cases dataU.content <;> cases dataU.category_id <;> cases dataU.published <;>
        exact generate_slug_first_fresh _ _ _ hg

/-- The article the C9 witness creation stores: title `Foo` collides with
the stored slug `foo`, so the suffixed slug `foo-1` is chosen. -/
def artFoo1 : Article :=
  { id := 2, title := "Foo", slug := "foo-1", content := "x", author_id := 1,
    category_id := none, created_at := 10, updated_at := 10, published := true }

/-- Witness for the amended C9: creating an article titled `Foo` (no
explicit slug) against the store already holding slug `foo` yields the
first fresh candidate `foo-1`. -/
theorem slug_collision_suffix_witness :
    isFirstFreshSlug (slugify "Foo") (exSt.articles.map (fun x => x.slug))
      artFoo1.slug :=
  (slug_collision_suffix exSt alice 10 2).1
    { title := "Foo", slug := none, content := "x" } artFoo1
    ({ exSt with articles := exSt.articles ++ [artFoo1] } : St) rfl rfl

/-- C10: an article-update request that omits the title leaves the stored
slug unchanged — even when the request supplies a slug value — because the
slug is only recomputed inside the `if data.title is not None:` branch. -/
theorem update_without_title_keeps_slug (st : St) (user : DjUser) (aid : Nat)
    (data : ArticleUpdateSchema) (now : Nat) (a res : Article) (st' : St)
    (hfind : findArticleById st aid = some a)
    (htitle : data.title = none)
    (h : update_article st user aid data now = some (.ok res, st')) :
    res.slug = a.slug
    ∧ st'.articles = st.articles.map (fun b => if b.id == aid then res else b) := by
  unfold update_article at h
  rw [hfind] at h
  cases hown : (a.author_id != user.id) with
  | true =>
    simp [hown] at h
  | false =>
    simp only [hown, Bool.false_eq_true, if_false, htitle] at h
    cases hc : data.content <;> cases hk : data.category_id <;>
      cases hp : data.published <;>
      · simp only [hc, hk, hp] at h
        simp only [Option.some.injEq, Prod.mk.injEq,
          UpdateArticleResult.ok.injEq] at h
        obtain ⟨hres, hst⟩ := h
        refine ⟨by rw [← hres], ?_⟩
        rw [← hst, ← hres]

/-- Witness for C10: a title-less update by `alice` that supplies slug
`sneaky` and new content leaves the stored slug `foo` unchanged. -/
theorem update_without_title_keeps_slug_witness :
    ({ art1 with content := "new", updated_at := 900 } : Article).slug = art1.slug
    ∧ ({ exSt with articles := [{ art1 with content := "new", updated_at := 900 }] } : St).articles
      = exSt.articles.map (fun b =>
          if b.id == 1 then { art1 with content := "new", updated_at := 900 } else b) :=
  update_without_title_keeps_slug exSt alice 1
    { slug := some "sneaky", content := some "new" } 900 art1
    ({ art1 with content := "new", updated_at := 900 } : Article)
    ({ exSt with articles := [{ art1 with content := "new", updated_at := 900 }] } : St)
    rfl rfl rfl
